import Mathlib

/-!
Shallow embedding of the YUV420P frame-ingestion and encode-orchestration
loop of `src/main.c` (Intel hardware HEVC encoder driver).

The byte stream behind the C `FILE *` is modelled by `YuvFile`: a total
length in bytes together with a per-call I/O-error oracle (`failsAt`),
because the C standard library distinguishes end-of-file (`feof`) from
I/O errors (`ferror`) and `main` branches on `feof` (main.c:218).
A `Handle` carries the stream position and the sticky end-of-file and
error indicators, plus a count of `fread` calls made so far, used only to
index the error oracle.  Buffer contents are irrelevant to every
control-flow decision in the source, so reads track the byte counts
written to each plane rather than the bytes themselves.

The external encoder entry points (`EncodeContextWriteYuvData`,
`EncodeContextEncodeFrame`) are opaque in this repository; they are
modelled by boolean oracles indexed by the loop's frame index.  The
fatal setup steps of `main` (file open, plane allocation, GPU context,
encode context, encoder input frame, output file) are modelled by
boolean success flags.
-/

/-- State of a C `FILE *`: current position, the sticky EOF and error
indicators, and a count of `fread` calls made so far (instrumentation
used only to drive the I/O-error oracle). -/
structure Handle where
  pos : Nat
  calls : Nat
  eofFlag : Bool
  errFlag : Bool
deriving DecidableEq

/-- The input byte stream: its total length in bytes, plus an oracle
saying which `fread` calls fail with an I/O error (a `ferror`-style
failure, distinct from reaching end-of-file). -/
structure YuvFile where
  len : Nat
  failsAt : Nat → Bool

/-- C `fread(buf, 1, n, fp)`: returns the number of bytes obtained and
the updated stream state.  A normal call returns `min n (len - pos)`
bytes and sets the EOF indicator iff it came up short; an error-injected
call obtains no bytes and sets the error indicator instead. -/
def fread (f : YuvFile) (h : Handle) (n : Nat) : Nat × Handle :=
  if f.failsAt h.calls then
    (0, { h with calls := h.calls + 1, errFlag := true })
  else
    let got := min n (f.len - h.pos)
    (got, { h with pos := h.pos + got, calls := h.calls + 1,
                   eofFlag := h.eofFlag || decide (got < n) })

/-- Result of one `read_yuv420p_frame` body: the C return value (0 or
-1), the updated stream state, and how many bytes were written into the
Y, U and V plane buffers. -/
structure ReadOut where
  ret : Int
  h : Handle
  wY : Nat
  wU : Nat
  wV : Nat
deriving DecidableEq

/-- Body of `read_yuv420p_frame` (main.c:37-62), after the null-pointer
check: read `y_size = width*height` bytes into Y, then `y_size/4` into U,
then `y_size/4` into V.  Any short read returns -1 (the C Y-branch
distinguishes `feof` internally only to pick an error message; both
paths return -1, so the observable result is the same). -/
def readFrameCore (f : YuvFile) (h : Handle) (width height : Nat) : ReadOut :=
  let y_size := width * height
  let u_size := y_size / 4
  let v_size := y_size / 4
  let ry := fread f h y_size
  if ry.1 ≠ y_size then
    { ret := -1, h := ry.2, wY := ry.1, wU := 0, wV := 0 }
  else
    let ru := fread f ry.2 u_size
    if ru.1 ≠ u_size then
      { ret := -1, h := ru.2, wY := ry.1, wU := ru.1, wV := 0 }
    else
      let rv := fread f ru.2 v_size
      if rv.1 ≠ v_size then
        { ret := -1, h := rv.2, wY := ry.1, wU := ru.1, wV := rv.1 }
      else
        { ret := 0, h := rv.2, wY := ry.1, wU := ru.1, wV := rv.1 }

/-- Result of a full `read_yuv420p_frame` call: the return value, the
file pointer argument (with its stream state as mutated by the call) and
the bytes written to each plane buffer. -/
structure ReadCall where
  ret : Int
  fp : Option Handle
  wY : Nat
  wU : Nat
  wV : Nat
deriving DecidableEq

/-- `read_yuv420p_frame` (main.c:28-63).  The file pointer is an
`Option Handle` (none = NULL) and each plane buffer argument is a
boolean saying whether the pointer is non-null.  A null argument fails
immediately (main.c:32-35) before any `fread`. -/
def read_yuv420p_frame (f : YuvFile) (fp : Option Handle)
    (y_ok u_ok v_ok : Bool) (width height : Nat) : ReadCall :=
  match fp with
  | none => { ret := -1, fp := none, wY := 0, wU := 0, wV := 0 }
  | some hd =>
    if !y_ok || !u_ok || !v_ok then
      { ret := -1, fp := some hd, wY := 0, wU := 0, wV := 0 }
    else
      let o := readFrameCore f hd width height
      { ret := o.ret, fp := some o.h, wY := o.wY, wU := o.wU, wV := o.wV }

/-- Classification of one read attempt as seen by the loop in `main`
(main.c:216-225): return 0 is a successful frame read; on a nonzero
return, `feof(fp)` decides between end-of-stream (break) and a read
error (count as failed, continue). -/
inductive ReadClass where
  | frameRead
  | endOfStream
  | readError
deriving DecidableEq

/-- Classification performed by main.c:217-225 on the result of a
`read_yuv420p_frame` call: `ret == 0` is a frame read; otherwise
`feof(fp)` distinguishes end-of-stream from a hard read error. -/
def classifyRead (ret : Int) (h : Handle) : ReadClass :=
  if ret = 0 then .frameRead
  else if h.eofFlag then .endOfStream
  else .readError

/-- Total bytes of one YUV420P frame as sized by the source:
`y_size + y_size/4 + y_size/4` with `y_size = width*height` (integer
division, main.c:37-39 and 88-90). -/
def frameSize (width height : Nat) : Nat :=
  width * height + (width * height) / 4 + (width * height) / 4

/-- Keyframe cadence of main.c:245: `frame_num % 30 == 0`, a function of
the loop index alone. -/
def is_keyframe (frame_num : Nat) : Bool :=
  frame_num % 30 == 0

/-- Environment of one encoding run: the frame geometry, the input
stream, and boolean oracles (indexed by the loop's frame index) for the
two opaque encoder calls `EncodeContextWriteYuvData` and
`EncodeContextEncodeFrame`. -/
structure LoopEnv where
  width : Nat
  height : Nat
  file : YuvFile
  ingestOk : Nat → Bool
  encodeOk : Nat → Bool

/-- Mutable state of the encode loop of `main` (main.c:202-269): the
stream handle, the loop counter `frame_num`, the three counters of the
source, the derived `attempted` counter of the specification (number of
iterations whose read was not classified end-of-stream; not a variable
of the C source), and whether the loop was left via the end-of-stream
`break`. -/
structure LoopState where
  h : Handle
  frame_num : Nat
  encoded_frames : Nat
  keyframes : Nat
  failed_frames : Nat
  attempted : Nat
  eofBreak : Bool
deriving DecidableEq

/-- The read performed by the loop iteration at state `s`: `main` passes
the (non-null) file pointer and the three (non-null) plane buffers
(main.c:216). -/
def iterRead (env : LoopEnv) (s : LoopState) : ReadCall :=
  read_yuv420p_frame env.file (some s.h) true true true env.width env.height

/-- One iteration of the encode loop (main.c:206-269), returning the new
state and whether the loop continues (false = the end-of-stream
`break`).  Read → classify; on a frame read, ingest
(`EncodeContextWriteYuvData`), then encode (`EncodeContextEncodeFrame`);
every failure increments `failed_frames` and continues; encode success
increments `encoded_frames` and, when `is_keyframe frame_num`, also
`keyframes`. -/
def loopIter (env : LoopEnv) (s : LoopState) : LoopState × Bool :=
  let o := iterRead env s
  let h1 := o.fp.getD s.h
  match classifyRead o.ret h1 with
  | .endOfStream => ({ s with h := h1, eofBreak := true }, false)
  | .readError =>
      ({ s with h := h1, failed_frames := s.failed_frames + 1,
                attempted := s.attempted + 1,
                frame_num := s.frame_num + 1 }, true)
  | .frameRead =>
      if env.ingestOk s.frame_num then
        if env.encodeOk s.frame_num then
          ({ s with h := h1, encoded_frames := s.encoded_frames + 1,
                    keyframes := s.keyframes +
                      (if is_keyframe s.frame_num then 1 else 0),
                    attempted := s.attempted + 1,
                    frame_num := s.frame_num + 1 }, true)
        else
          ({ s with h := h1, failed_frames := s.failed_frames + 1,
                    attempted := s.attempted + 1,
                    frame_num := s.frame_num + 1 }, true)
      else
        ({ s with h := h1, failed_frames := s.failed_frames + 1,
                  attempted := s.attempted + 1,
                  frame_num := s.frame_num + 1 }, true)

/-- Run at most `fuel` further loop iterations from state `s`, stopping
early only when an iteration reports the end-of-stream `break`. -/
def runIters (env : LoopEnv) : Nat → LoopState → LoopState
  | 0, s => s
  | fuel + 1, s =>
      let p := loopIter env s
      if p.2 then runIters env fuel p.1 else p.1

/-- Initial loop state: a freshly opened stream at position 0 with clear
indicators, all counters 0 (main.c:202-206). -/
def initState : LoopState :=
  { h := { pos := 0, calls := 0, eofFlag := false, errFlag := false },
    frame_num := 0, encoded_frames := 0, keyframes := 0,
    failed_frames := 0, attempted := 0, eofBreak := false }

/-- The whole encode loop of `main` (main.c:206-269): `max_frames`
iterations from the initial state (the source hardcodes
`max_frames = 100`; the loop logic is geometry- and limit-generic). -/
def runLoop (env : LoopEnv) (max_frames : Nat) : LoopState :=
  runIters env max_frames initState

/-- Predicate (as used by the specification's keyframe accounting): the
iteration at state `s` reaches the Encode step and that step succeeds,
i.e. the read is classified as a frame read, ingest succeeds and
`EncodeContextEncodeFrame` returns true. -/
def encodeStepSuccess (env : LoopEnv) (s : LoopState) : Bool :=
  decide (classifyRead (iterRead env s).ret ((iterRead env s).fp.getD s.h)
            = ReadClass.frameRead)
  && env.ingestOk s.frame_num && env.encodeOk s.frame_num

/-- Status of `open_yuv_file` (main.c:76-106): success, file-open
failure, or plane-allocation failure (the latter reported by the
"Failed to allocate memory" diagnostic). -/
inductive OpenStatus where
  | ok
  | openError
  | allocError
deriving DecidableEq

/-- Observable outcome of `open_yuv_file`: its status, the ledger of
plane buffers still allocated when the call returns (buffer 0 = Y,
1 = U, 2 = V; on success all three are handed to the caller), and
whether an open `FILE` remains live at return (on success the stream
stays open for the caller; on the allocation failure path it is closed,
main.c:101). -/
structure OpenOut where
  status : OpenStatus
  live : List Nat
  fpOpen : Bool
deriving DecidableEq

/-- `open_yuv_file` (main.c:76-106) with `fopen` and the three `malloc`
calls modelled by success flags: a successful `malloc` adds its buffer
to the ledger (main.c:92-94); on any allocation failure, each
already-allocated buffer is freed (`if (*y_data) free(*y_data);` etc.,
main.c:98-100), the stream is closed (main.c:101) and -1 is returned
with the "Failed to allocate memory" diagnostic. -/
def open_yuv_file (openOk aY aU aV : Bool) : OpenOut :=
  if !openOk then
    { status := .openError, live := [], fpOpen := false }
  else
    let live := (if aY then [0] else []) ++ (if aU then [1] else [])
                  ++ (if aV then [2] else [])
    if aY && aU && aV then
      { status := .ok, live := live, fpOpen := true }
    else
      let live1 := if aY then live.erase 0 else live
      let live2 := if aU then live1.erase 1 else live1
      let live3 := if aV then live2.erase 2 else live2
      { status := .allocError, live := live3, fpOpen := false }

/-- Success flags for the fatal setup steps of `main` (main.c:144-194):
`fopen` of the input, the three plane allocations, `GpuContextCreate`,
`EncodeContextCreate`, `EncodeContextGetFrame`, and `open` of the
output file. -/
structure SetupEnv where
  openOk : Bool
  aY : Bool
  aU : Bool
  aV : Bool
  gpuOk : Bool
  encCtxOk : Bool
  getFrameOk : Bool
  outputOk : Bool
deriving DecidableEq

/-- All fatal setup steps of `main` succeed. -/
def setupOk (se : SetupEnv) : Bool :=
  se.openOk && se.aY && se.aU && se.aV && se.gpuOk && se.encCtxOk
    && se.getFrameOk && se.outputOk

/-- Whole-program model of `main` (main.c:123-327): each fatal setup
failure returns -1 before the loop (main.c:144-194); otherwise the loop
runs and the exit status is 0 when at least one frame was encoded and 1
otherwise (main.c:320-326).  The second component is the final loop
state, `none` when setup aborted before the loop. -/
def mainModel (se : SetupEnv) (env : LoopEnv) (max_frames : Nat) :
    Int × Option LoopState :=
  if (open_yuv_file se.openOk se.aY se.aU se.aV).status ≠ OpenStatus.ok then
    (-1, none)
  else if !se.gpuOk then (-1, none)
  else if !se.encCtxOk then (-1, none)
  else if !se.getFrameOk then (-1, none)
  else if !se.outputOk then (-1, none)
  else
    let fin := runLoop env max_frames
    (if 0 < fin.encoded_frames then 0 else 1, some fin)

/-- FPS statistic of main.c:276: `encoded_frames / elapsed_time` when at
least one frame was encoded, 0 otherwise (real arithmetic modelled over
ℚ). -/
def fpsOf (encoded_frames : Nat) (elapsed : ℚ) : ℚ :=
  if 0 < encoded_frames then (encoded_frames : ℚ) / elapsed else 0

/-- Bitrate report of main.c:300-309: computed (in Mbps, modelled over
ℚ) only when `stat` succeeded, the output size is positive and at least
one frame was encoded; otherwise omitted. -/
def bitrateReport (statOk : Bool) (st_size : Nat) (encoded_frames : Nat)
    (elapsed : ℚ) : Option ℚ :=
  if statOk && decide (0 < st_size) && decide (0 < encoded_frames) then
    some ((st_size : ℚ) * 8 / (elapsed * 1000000))
  else
    none

/-- Sequential `read_yuv420p_frame` calls on a fresh stream:
`readSeq f w h n` is the result of the `(n+1)`-th call. -/
def readSeq (f : YuvFile) (width height : Nat) : Nat → ReadOut
  | 0 => readFrameCore f { pos := 0, calls := 0, eofFlag := false,
                           errFlag := false } width height
  | n + 1 => readFrameCore f (readSeq f width height n).h width height

/-! ### Helper lemmas about `fread` and `readFrameCore` -/

/-- An error-free `fread` with enough bytes left returns exactly `n`
bytes and leaves the indicators unchanged. -/
lemma fread_full (f : YuvFile) (h : Handle) (n : Nat)
    (herr : f.failsAt h.calls = false) (hroom : h.pos + n ≤ f.len) :
    fread f h n = (n, { h with pos := h.pos + n, calls := h.calls + 1 }) := by
  simp only [fread, herr, Bool.false_eq_true, if_false]
  have hmin : min n (f.len - h.pos) = n := by omega
  simp [hmin, show ¬ n < n by omega]

/-- An error-free `fread` asked for more bytes than remain returns the
remainder and sets the EOF indicator. -/
lemma fread_short (f : YuvFile) (h : Handle) (n : Nat)
    (herr : f.failsAt h.calls = false) (hn : 0 < n) (hshort : f.len < h.pos + n) :
    fread f h n =
      (f.len - h.pos,
       { h with pos := h.pos + (f.len - h.pos), calls := h.calls + 1,
                eofFlag := true }) := by
  simp only [fread, herr, Bool.false_eq_true, if_false]
  have hmin : min n (f.len - h.pos) = f.len - h.pos := by omega
  simp [hmin, show f.len - h.pos < n by omega]

/-- With an error-free stream and a whole frame of bytes remaining,
`readFrameCore` succeeds, advances the position by `frameSize`, makes
three `fread` calls and fills all three planes. -/
lemma readFrameCore_success (f : YuvFile) (h : Handle) (w ht : Nat)
    (herr : ∀ c, f.failsAt c = false)
    (hroom : h.pos + frameSize w ht ≤ f.len) :
    readFrameCore f h w ht =
      { ret := 0,
        h := { pos := h.pos + frameSize w ht, calls := h.calls + 3,
               eofFlag := h.eofFlag, errFlag := h.errFlag },
        wY := w * ht, wU := (w * ht) / 4, wV := (w * ht) / 4 } := by
  have hroom' : h.pos + (w * ht + (w * ht) / 4 + (w * ht) / 4) ≤ f.len := by
    simpa [frameSize] using hroom
  have h1 := fread_full f h (w * ht) (herr _) (by omega)
  have h2 := fread_full f { h with pos := h.pos + w * ht, calls := h.calls + 1 }
      ((w * ht) / 4) (herr _) (by simp; omega)
  have h3 := fread_full f
      { h with pos := h.pos + w * ht + (w * ht) / 4, calls := h.calls + 2 }
      ((w * ht) / 4) (herr _) (by simp; omega)
  simp only [readFrameCore, h1]
  simp only [h2]
  simp only [h3]
  simp [frameSize]
  omega

/-- With an error-free stream already at (or past) its end and a
nonempty Y plane, `readFrameCore` fails on the Y read with the EOF
indicator set, obtaining no bytes and not advancing the position. -/
lemma readFrameCore_eos (f : YuvFile) (h : Handle) (w ht : Nat)
    (herr : ∀ c, f.failsAt c = false) (hy : 0 < w * ht)
    (hend : f.len ≤ h.pos) :
    readFrameCore f h w ht =
      { ret := -1,
        h := { h with calls := h.calls + 1, eofFlag := true },
        wY := 0, wU := 0, wV := 0 } := by
  have h1 := fread_short f h (w * ht) (herr _) hy (by omega)
  have hz : f.len - h.pos = 0 := by omega
  rw [hz] at h1
  simp only [readFrameCore, h1]
  simp [show (0 : Nat) ≠ w * ht by omega]

/-- With an error-free stream, `readFrameCore` either succeeds or ends
with the EOF indicator set: the error indicator can never be the cause
of a failure. -/
lemma readFrameCore_errfree (f : YuvFile) (h : Handle) (w ht : Nat)
    (herr : ∀ c, f.failsAt c = false) :
    (readFrameCore f h w ht).ret = 0 ∨
      (readFrameCore f h w ht).h.eofFlag = true := by
  simp only [readFrameCore, fread, herr, Bool.false_eq_true, if_false]
  split
  · next hc =>
      right
      simp only [ne_eq, Decidable.not_not] at hc ⊢
      have := Nat.min_le_left (w * ht) (f.len - h.pos)
      simp
      omega
  · next hc =>
      split
      · next hc2 =>
          right
          have := Nat.min_le_left ((w * ht) / 4) (f.len - (h.pos + min (w * ht) (f.len - h.pos)))
          simp
          omega
      · next hc2 =>
          split
          · next hc3 =>
              right
              simp
              omega
          · next hc3 => left; rfl

/-- A short Y read in an error-free `readFrameCore` (fewer bytes remain
than the Y plane needs) returns -1 with the EOF indicator set, however
many bytes were obtained for Y. -/
lemma readFrameCore_shortY (f : YuvFile) (h : Handle) (w ht : Nat)
    (herr : ∀ c, f.failsAt c = false) (hy : 0 < w * ht)
    (hshort : f.len < h.pos + w * ht) :
    readFrameCore f h w ht =
      { ret := -1,
        h := { h with pos := h.pos + (f.len - h.pos),
                      calls := h.calls + 1, eofFlag := true },
        wY := f.len - h.pos, wU := 0, wV := 0 } := by
  have h1 := fread_short f h (w * ht) (herr _) hy hshort
  simp only [readFrameCore, h1]
  simp [show f.len - h.pos ≠ w * ht by omega]

/-! ### Helper lemmas about `loopIter` and `runIters` -/

/-- The loop's read is the body of `read_yuv420p_frame` on valid
pointers. -/
lemma iterRead_eq (env : LoopEnv) (s : LoopState) :
    iterRead env s =
      { ret := (readFrameCore env.file s.h env.width env.height).ret,
        fp := some (readFrameCore env.file s.h env.width env.height).h,
        wY := (readFrameCore env.file s.h env.width env.height).wY,
        wU := (readFrameCore env.file s.h env.width env.height).wU,
        wV := (readFrameCore env.file s.h env.width env.height).wV } := by
  simp [iterRead, read_yuv420p_frame]

/-- On an end-of-stream classification the iteration breaks out of the
loop, leaving every counter and the frame index unchanged. -/
lemma loopIter_eos (env : LoopEnv) (s : LoopState) (o : ReadOut)
    (ho : readFrameCore env.file s.h env.width env.height = o)
    (hc : classifyRead o.ret o.h = ReadClass.endOfStream) :
    loopIter env s = ({ s with h := o.h, eofBreak := true }, false) := by
  simp [loopIter, iterRead, read_yuv420p_frame, ho, hc]

/-- On a read-error classification the iteration counts one failure and
continues. -/
lemma loopIter_readError (env : LoopEnv) (s : LoopState) (o : ReadOut)
    (ho : readFrameCore env.file s.h env.width env.height = o)
    (hc : classifyRead o.ret o.h = ReadClass.readError) :
    loopIter env s =
      ({ s with h := o.h, failed_frames := s.failed_frames + 1,
                attempted := s.attempted + 1,
                frame_num := s.frame_num + 1 }, true) := by
  simp [loopIter, iterRead, read_yuv420p_frame, ho, hc]

/-- On a successful frame read the iteration continues, advances the
frame index, counts one attempt, and adds exactly one to the sum of the
success and failure counters; the break flag is untouched. -/
lemma loopIter_frameRead (env : LoopEnv) (s : LoopState) (o : ReadOut)
    (ho : readFrameCore env.file s.h env.width env.height = o)
    (hc : classifyRead o.ret o.h = ReadClass.frameRead) :
    (loopIter env s).2 = true ∧ (loopIter env s).1.h = o.h ∧
    (loopIter env s).1.attempted = s.attempted + 1 ∧
    (loopIter env s).1.frame_num = s.frame_num + 1 ∧
    (loopIter env s).1.eofBreak = s.eofBreak ∧
    (loopIter env s).1.encoded_frames + (loopIter env s).1.failed_frames
      = s.encoded_frames + s.failed_frames + 1 := by
  cases hi : env.ingestOk s.frame_num <;> cases he : env.encodeOk s.frame_num <;>
    simp [loopIter, iterRead, read_yuv420p_frame, ho, hc, hi, he] <;> omega

/-- Every continuing iteration adds one to `attempted` and one to the
sum of the success and failure counters; a breaking iteration changes
no counter.  Stated as a single case analysis on the classification. -/
lemma loopIter_counters (env : LoopEnv) (s : LoopState) :
    ((loopIter env s).2 = true ∧
     (loopIter env s).1.attempted = s.attempted + 1 ∧
     (loopIter env s).1.frame_num = s.frame_num + 1 ∧
     (loopIter env s).1.eofBreak = s.eofBreak ∧
     (loopIter env s).1.encoded_frames + (loopIter env s).1.failed_frames
       = s.encoded_frames + s.failed_frames + 1) ∨
    ((loopIter env s).2 = false ∧
     (loopIter env s).1 = { s with h := (loopIter env s).1.h, eofBreak := true }) := by
  cases hc : classifyRead (readFrameCore env.file s.h env.width env.height).ret
      (readFrameCore env.file s.h env.width env.height).h with
  | frameRead =>
      left
      have := loopIter_frameRead env s _ rfl hc
      tauto
  | endOfStream =>
      right
      have := loopIter_eos env s _ rfl hc
      rw [this]
      simp
  | readError =>
      left
      have := loopIter_readError env s _ rfl hc
      rw [this]
      simp
      omega

/-- The counter invariant `attempted = encoded + failed` is preserved by
any number of loop iterations. -/
lemma runIters_attempted_inv (env : LoopEnv) : ∀ fuel s,
    s.attempted = s.encoded_frames + s.failed_frames →
    (runIters env fuel s).attempted
      = (runIters env fuel s).encoded_frames
          + (runIters env fuel s).failed_frames := by
  intro fuel
  induction fuel with
  | zero => intro s hs; simpa [runIters] using hs
  | succ fuel ih =>
      intro s hs
      rcases loopIter_counters env s with ⟨h2, ha, _, _, hef⟩ | ⟨h2, heq⟩
      · simp only [runIters, h2, if_true]
        exact ih _ (by omega)
      · simp only [runIters, h2, Bool.false_eq_true, if_false]
        rw [heq]
        simpa using hs

/-- If a run of the loop did not break on end-of-stream, it executed all
its iterations. -/
lemma runIters_complete (env : LoopEnv) : ∀ fuel s,
    s.eofBreak = false →
    (runIters env fuel s).eofBreak = false →
    (runIters env fuel s).frame_num = s.frame_num + fuel := by
  intro fuel
  induction fuel with
  | zero => intro s _ _; simp [runIters]
  | succ fuel ih =>
      intro s hs hfin
      rcases loopIter_counters env s with ⟨h2, _, hfn, hbr, _⟩ | ⟨h2, heq⟩
      · simp only [runIters, h2, if_true] at hfin ⊢
        have := ih (loopIter env s).1 (by rw [hbr]; exact hs) hfin
        omega
      · simp only [runIters, h2, Bool.false_eq_true, if_false] at hfin
        rw [heq] at hfin
        simp at hfin

/-- On an error-free stream holding exactly `r` more whole frames, a run
of `fuel` further iterations performs `min fuel r` of them (whatever the
ingest and encode oracles do) and breaks on end-of-stream exactly when
the stream runs out before the iteration budget does. -/
lemma runIters_stream (env : LoopEnv) (hw : 0 < env.width)
    (hht : 0 < env.height)
    (herr : ∀ c, env.file.failsAt c = false) : ∀ fuel r s,
    s.h.eofFlag = false →
    env.file.len = s.h.pos + r * frameSize env.width env.height →
    (runIters env fuel s).attempted = s.attempted + min fuel r ∧
    (runIters env fuel s).frame_num = s.frame_num + min fuel r ∧
    (runIters env fuel s).eofBreak = (if r < fuel then true else s.eofBreak) := by
  intro fuel
  induction fuel with
  | zero => intro r s _ _; simp [runIters]
  | succ fuel ih =>
      intro r s hs hlen
      match r with
      | 0 =>
          have hy : 0 < env.width * env.height := Nat.mul_pos hw hht
          have ho := readFrameCore_eos env.file s.h env.width env.height herr hy
            (by omega)
          have hcl : classifyRead
              (readFrameCore env.file s.h env.width env.height).ret
              (readFrameCore env.file s.h env.width env.height).h
                = ReadClass.endOfStream := by
            rw [ho]; simp [classifyRead]
          have hiter := loopIter_eos env s _ rfl hcl
          simp only [runIters, hiter, Bool.false_eq_true, if_false]
          simp
      | r + 1 =>
          rw [Nat.succ_mul] at hlen
          have hroom : s.h.pos + frameSize env.width env.height ≤ env.file.len := by
            omega
          have ho := readFrameCore_success env.file s.h env.width env.height herr
            hroom
          have hcl : classifyRead
              (readFrameCore env.file s.h env.width env.height).ret
              (readFrameCore env.file s.h env.width env.height).h
                = ReadClass.frameRead := by
            rw [ho]; simp [classifyRead]
          obtain ⟨h2, hh, ha, hfn, hbr, _⟩ := loopIter_frameRead env s _ rfl hcl
          have hs' : (loopIter env s).1.h.eofFlag = false := by
            rw [hh, ho]; exact hs
          have hlen' : env.file.len
              = (loopIter env s).1.h.pos + r * frameSize env.width env.height := by
            rw [hh, ho]; simp; omega
          obtain ⟨iha, ihf, ihb⟩ := ih r (loopIter env s).1 hs' hlen'
          simp only [runIters, h2, if_true]
          refine ⟨?_, ?_, ?_⟩
          · rw [iha, ha]; omega
          · rw [ihf, hfn]; omega
          · rw [ihb, hbr]
            simp [Nat.succ_lt_succ_iff]

/-- A run whose setup fails aborts with -1 before the loop. -/
lemma mainModel_setup_fail (se : SetupEnv) (env : LoopEnv) (max_frames : Nat)
    (hse : setupOk se = false) : mainModel se env max_frames = (-1, none) := by
  obtain ⟨o1, a1, a2, a3, g1, e1, f1, u1⟩ := se
  cases o1 <;> cases a1 <;> cases a2 <;> cases a3 <;> cases g1 <;> cases e1 <;>
    cases f1 <;> cases u1 <;> simp_all [mainModel, setupOk, open_yuv_file]

/-- A run whose setup succeeds executes the loop and exits 0 or 1
according to the success counter. -/
lemma mainModel_setup_pass (se : SetupEnv) (env : LoopEnv) (max_frames : Nat)
    (hse : setupOk se = true) :
    mainModel se env max_frames
      = (if 0 < (runLoop env max_frames).encoded_frames then (0 : Int) else 1,
         some (runLoop env max_frames)) := by
  obtain ⟨o1, a1, a2, a3, g1, e1, f1, u1⟩ := se
  cases o1 <;> cases a1 <;> cases a2 <;> cases a3 <;> cases g1 <;> cases e1 <;>
    cases f1 <;> cases u1 <;> simp_all [mainModel, setupOk, open_yuv_file]

/-! ### Claim theorems -/

/-- Claim C1, counterexample: for geometry width=4, height=2 and a
9-byte error-free stream (full Y, partial U), the first
`read_yuv420p_frame` call is classified by `main` as `EndOfStream`, not
`ReadError`: the loop breaks without incrementing `failed_frames`. -/
theorem c1_short_uv_read_cex :
    classifyRead
        (readFrameCore ⟨9, fun _ => false⟩ ⟨0, 0, false, false⟩ 4 2).ret
        (readFrameCore ⟨9, fun _ => false⟩ ⟨0, 0, false, false⟩ 4 2).h
      = ReadClass.endOfStream ∧
    classifyRead
        (readFrameCore ⟨9, fun _ => false⟩ ⟨0, 0, false, false⟩ 4 2).ret
        (readFrameCore ⟨9, fun _ => false⟩ ⟨0, 0, false, false⟩ 4 2).h
      ≠ ReadClass.readError ∧
    (readFrameCore ⟨9, fun _ => false⟩ ⟨0, 0, false, false⟩ 4 2).wY = 8 ∧
    (loopIter ⟨4, 2, ⟨9, fun _ => false⟩, fun _ => true, fun _ => true⟩
        initState).2 = false ∧
    (loopIter ⟨4, 2, ⟨9, fun _ => false⟩, fun _ => true, fun _ => true⟩
        initState).1.failed_frames = 0 ∧
    (loopIter ⟨4, 2, ⟨9, fun _ => false⟩, fun _ => true, fun _ => true⟩
        initState).1.eofBreak = true := by
  decide

/-- Claim C1, amended: a short U or V read at true end-of-stream (the
stream's EOF indicator set, an error-free stream) is classified as
`EndOfStream`, not `ReadError`; `ReadError` requires an I/O error, so on
an error-free stream no read is ever classified as `ReadError`.  In
particular the 9-byte, 4×2 scenario is classified `EndOfStream`. -/
theorem c1_short_uv_read_amended (f : YuvFile) (h : Handle) (w ht : Nat)
    (herr : ∀ c, f.failsAt c = false) :
    ((readFrameCore f h w ht).wY = w * ht → (readFrameCore f h w ht).ret ≠ 0 →
       classifyRead (readFrameCore f h w ht).ret (readFrameCore f h w ht).h
         = ReadClass.endOfStream) ∧
    classifyRead (readFrameCore f h w ht).ret (readFrameCore f h w ht).h
      ≠ ReadClass.readError := by
  by_cases hret : (readFrameCore f h w ht).ret = 0
  · exact ⟨fun _ hr => absurd hret hr, by simp [classifyRead, hret]⟩
  · rcases readFrameCore_errfree f h w ht herr with h0 | h1
    · exact absurd h0 hret
    · exact ⟨fun _ _ => by simp [classifyRead, hret, h1],
             by simp [classifyRead, hret, h1]⟩

/-- Witness for c1_short_uv_read_amended: the 9-byte, 4×2 stream. -/
theorem c1_short_uv_read_amended_witness :
    classifyRead
        (readFrameCore ⟨9, fun _ => false⟩ ⟨0, 0, false, false⟩ 4 2).ret
        (readFrameCore ⟨9, fun _ => false⟩ ⟨0, 0, false, false⟩ 4 2).h
      = ReadClass.endOfStream :=
  (c1_short_uv_read_amended ⟨9, fun _ => false⟩ ⟨0, 0, false, false⟩ 4 2
      (fun _ => rfl)).1 (by decide) (by decide)

/-- Claim C6: on an error-free stream with fewer bytes left than the Y
plane needs, `read_yuv420p_frame` is classified as `EndOfStream`
whatever the number of bytes actually obtained for Y (`wY = len - pos`),
and an `EndOfStream` classification makes the loop break leaving every
counter unchanged. -/
theorem c6_short_y_read_end_of_stream (f : YuvFile) (h : Handle) (w ht : Nat)
    (herr : ∀ c, f.failsAt c = false) (hy : 0 < w * ht)
    (hshort : f.len < h.pos + w * ht) :
    classifyRead (readFrameCore f h w ht).ret (readFrameCore f h w ht).h
      = ReadClass.endOfStream ∧
    (readFrameCore f h w ht).wY = f.len - h.pos ∧
    ∀ env s,
      classifyRead (iterRead env s).ret ((iterRead env s).fp.getD s.h)
          = ReadClass.endOfStream →
      loopIter env s
        = ({ s with h := (iterRead env s).fp.getD s.h, eofBreak := true },
           false) := by
  have ho := readFrameCore_shortY f h w ht herr hy hshort
  refine ⟨by rw [ho]; simp [classifyRead], by rw [ho], ?_⟩
  intro env s hcl
  have hcl' : classifyRead
      (readFrameCore env.file s.h env.width env.height).ret
      (readFrameCore env.file s.h env.width env.height).h
        = ReadClass.endOfStream := by
    simpa [iterRead, read_yuv420p_frame] using hcl
  have := loopIter_eos env s _ rfl hcl'
  rw [this]
  simp [iterRead, read_yuv420p_frame]

/-- Witness for c6_short_y_read_end_of_stream: a 3-byte stream at
geometry 4×2 (Y needs 8 bytes). -/
theorem c6_short_y_read_end_of_stream_witness :
    classifyRead
        (readFrameCore ⟨3, fun _ => false⟩ ⟨0, 0, false, false⟩ 4 2).ret
        (readFrameCore ⟨3, fun _ => false⟩ ⟨0, 0, false, false⟩ 4 2).h
      = ReadClass.endOfStream :=
  (c6_short_y_read_end_of_stream ⟨3, fun _ => false⟩ ⟨0, 0, false, false⟩ 4 2
      (fun _ => rfl) (by decide) (by decide)).1

/-- Claim C10: a null file pointer or a null plane buffer makes
`read_yuv420p_frame` return -1 immediately: the stream state is
untouched (no `fread` is performed) and no bytes are written to any
plane buffer. -/
theorem c10_null_args_fail_fast (f : YuvFile) (fp : Option Handle)
    (y_ok u_ok v_ok : Bool) (w ht : Nat)
    (hnull : fp = none ∨ y_ok = false ∨ u_ok = false ∨ v_ok = false) :
    read_yuv420p_frame f fp y_ok u_ok v_ok w ht
      = { ret := -1, fp := fp, wY := 0, wU := 0, wV := 0 } := by
  rcases hnull with hn | hn | hn | hn <;> cases fp <;>
    simp_all [read_yuv420p_frame]

/-- Witness for c10_null_args_fail_fast: a null file pointer. -/
theorem c10_null_args_fail_fast_witness :
    read_yuv420p_frame ⟨12, fun _ => false⟩ none true true true 4 2
      = { ret := -1, fp := none, wY := 0, wU := 0, wV := 0 } :=
  c10_null_args_fail_fast ⟨12, fun _ => false⟩ none true true true 4 2
    (Or.inl rfl)

/-- Claim C9: when `fopen` succeeded but one of the three plane
allocations fails, `open_yuv_file` frees every buffer it had allocated
(the live-allocation ledger is empty at return), closes the stream, and
reports the allocation failure. -/
theorem c9_partial_alloc_failure_frees (aY aU aV : Bool)
    (hfail : (aY && aU && aV) = false) :
    (open_yuv_file true aY aU aV).status = OpenStatus.allocError ∧
    (open_yuv_file true aY aU aV).live = [] ∧
    (open_yuv_file true aY aU aV).fpOpen = false := by
  cases aY <;> cases aU <;> cases aV <;> simp_all [open_yuv_file]

/-- Witness for c9_partial_alloc_failure_frees: Y and V allocated, U
allocation failed. -/
theorem c9_partial_alloc_failure_frees_witness :
    (open_yuv_file true true false true).status = OpenStatus.allocError ∧
    (open_yuv_file true true false true).live = [] ∧
    (open_yuv_file true true false true).fpOpen = false :=
  c9_partial_alloc_failure_frees true false true (by decide)

/-- Claim C8: `fps` equals `succeeded/elapsed` when at least one frame
succeeded and 0 when none did; the bitrate figure is produced only when
the output size and the success counter are both positive (and then
equals `size*8 / (elapsed*1e6)`), and is omitted whenever either is
zero. -/
theorem c8_fps_bitrate (encoded_frames : Nat) (elapsed : ℚ) (statOk : Bool)
    (st_size : Nat) :
    (encoded_frames = 0 → fpsOf encoded_frames elapsed = 0) ∧
    (0 < encoded_frames →
       fpsOf encoded_frames elapsed = (encoded_frames : ℚ) / elapsed) ∧
    (∀ r, bitrateReport statOk st_size encoded_frames elapsed = some r →
       0 < st_size ∧ 0 < encoded_frames ∧
       r = (st_size : ℚ) * 8 / (elapsed * 1000000)) ∧
    ((st_size = 0 ∨ encoded_frames = 0) →
       bitrateReport statOk st_size encoded_frames elapsed = none) := by
  refine ⟨?_, ?_, ?_, ?_⟩
  · intro h0; simp [fpsOf, h0]
  · intro h0; simp [fpsOf, h0]
  · intro r hr
    simp only [bitrateReport] at hr
    split at hr
    · next hcond =>
        simp only [Bool.and_eq_true, decide_eq_true_eq] at hcond
        obtain ⟨⟨_, hs⟩, he⟩ := hcond
        cases hr
        exact ⟨hs, he, rfl⟩
    · exact absurd hr (by simp)
  · intro h0
    rcases h0 with h0 | h0 <;> simp [bitrateReport, h0]

/-- Witness for c8_fps_bitrate: zero successes. -/
theorem c8_fps_bitrate_witness :
    fpsOf 0 1 = 0 ∧ bitrateReport true 0 0 1 = none :=
  ⟨(c8_fps_bitrate 0 1 true 0).1 rfl,
   (c8_fps_bitrate 0 1 true 0).2.2.2 (Or.inl rfl)⟩

/-- Claim C2: after every run `attempted = encoded_frames +
failed_frames`, and every iteration whose read is not classified
end-of-stream counts one attempt and adds exactly one to the sum of the
success and failure counters while continuing the loop. -/
theorem c2_attempted_eq_succeeded_add_failed (env : LoopEnv)
    (max_frames : Nat) :
    (runLoop env max_frames).attempted
      = (runLoop env max_frames).encoded_frames
          + (runLoop env max_frames).failed_frames ∧
    ∀ s, classifyRead (iterRead env s).ret ((iterRead env s).fp.getD s.h)
        ≠ ReadClass.endOfStream →
      (loopIter env s).1.attempted = s.attempted + 1 ∧
      (loopIter env s).2 = true ∧
      (loopIter env s).1.encoded_frames + (loopIter env s).1.failed_frames
        = s.encoded_frames + s.failed_frames + 1 := by
  constructor
  · exact runIters_attempted_inv env max_frames initState rfl
  · intro s hcl
    have hcl' : classifyRead
        (readFrameCore env.file s.h env.width env.height).ret
        (readFrameCore env.file s.h env.width env.height).h
          ≠ ReadClass.endOfStream := by
      simpa [iterRead, read_yuv420p_frame] using hcl
    cases hc : classifyRead (readFrameCore env.file s.h env.width env.height).ret
        (readFrameCore env.file s.h env.width env.height).h with
    | endOfStream => exact absurd hc hcl'
    | readError =>
        have heq := loopIter_readError env s _ rfl hc
        rw [heq]
        refine ⟨rfl, rfl, ?_⟩
        simp
        omega
    | frameRead =>
        obtain ⟨h2, _, ha, _, _, hef⟩ := loopIter_frameRead env s _ rfl hc
        exact ⟨ha, h2, hef⟩

/-- Witness for c2_attempted_eq_succeeded_add_failed: the first
iteration on a 36-byte 4×2 stream. -/
theorem c2_attempted_eq_succeeded_add_failed_witness :
    (loopIter ⟨4, 2, ⟨36, fun _ => false⟩, fun _ => true, fun _ => true⟩
        initState).1.attempted = initState.attempted + 1 ∧
    (loopIter ⟨4, 2, ⟨36, fun _ => false⟩, fun _ => true, fun _ => true⟩
        initState).2 = true ∧
    (loopIter ⟨4, 2, ⟨36, fun _ => false⟩, fun _ => true, fun _ => true⟩
          initState).1.encoded_frames
        + (loopIter ⟨4, 2, ⟨36, fun _ => false⟩, fun _ => true, fun _ => true⟩
            initState).1.failed_frames
      = initState.encoded_frames + initState.failed_frames + 1 :=
  (c2_attempted_eq_succeeded_add_failed
      ⟨4, 2, ⟨36, fun _ => false⟩, fun _ => true, fun _ => true⟩ 5).2
    initState (by decide)

/-- Claim C3: an iteration is classified as a keyframe iff its index
satisfies `i % 30 = 0` (a function of the index alone), and the
`keyframes` counter is incremented in an iteration iff that iteration's
encode step succeeded and its index is a keyframe index. -/
theorem c3_keyframe_cadence :
    (∀ i, is_keyframe i = true ↔ i % 30 = 0) ∧
    ∀ env s, (loopIter env s).1.keyframes
      = s.keyframes
          + (if encodeStepSuccess env s && is_keyframe s.frame_num then 1
             else 0) := by
  constructor
  · intro i; simp [is_keyframe]
  · intro env s
    cases hc : classifyRead (readFrameCore env.file s.h env.width env.height).ret
        (readFrameCore env.file s.h env.width env.height).h with
    | endOfStream =>
        have heq := loopIter_eos env s _ rfl hc
        rw [heq]
        simp [encodeStepSuccess, iterRead, read_yuv420p_frame, hc]
    | readError =>
        have heq := loopIter_readError env s _ rfl hc
        rw [heq]
        simp [encodeStepSuccess, iterRead, read_yuv420p_frame, hc]
    | frameRead =>
        cases hi : env.ingestOk s.frame_num <;>
          cases he : env.encodeOk s.frame_num <;>
            simp [loopIter, iterRead, read_yuv420p_frame, encodeStepSuccess,
              hc, hi, he]

/-- Claim C4: no in-loop frame failure terminates the loop.  Any
iteration not classified end-of-stream continues the loop; a run that
never hit end-of-stream executed all `max_frames` iterations; and on an
error-free stream of exactly `N` whole frames the run performs
`min max_frames N` iterations whatever the ingest and encode oracles
decide. -/
theorem c4_frame_failures_never_terminate (w ht N max_frames : Nat)
    (iOk eOk : Nat → Bool) (hw : 0 < w) (hht : 0 < ht) :
    (∀ env : LoopEnv, ∀ s,
       classifyRead (iterRead env s).ret ((iterRead env s).fp.getD s.h)
           ≠ ReadClass.endOfStream →
       (loopIter env s).2 = true ∧
       (loopIter env s).1.frame_num = s.frame_num + 1) ∧
    (∀ env : LoopEnv, ∀ mf, (runLoop env mf).eofBreak = false →
       (runLoop env mf).frame_num = mf) ∧
    (runLoop ⟨w, ht, ⟨N * frameSize w ht, fun _ => false⟩, iOk, eOk⟩
        max_frames).attempted
      = min max_frames N := by
  refine ⟨?_, ?_, ?_⟩
  · intro env s hcl
    have hcl' : classifyRead
        (readFrameCore env.file s.h env.width env.height).ret
        (readFrameCore env.file s.h env.width env.height).h
          ≠ ReadClass.endOfStream := by
      simpa [iterRead, read_yuv420p_frame] using hcl
    cases hc : classifyRead (readFrameCore env.file s.h env.width env.height).ret
        (readFrameCore env.file s.h env.width env.height).h with
    | endOfStream => exact absurd hc hcl'
    | readError =>
        have heq := loopIter_readError env s _ rfl hc
        rw [heq]
        exact ⟨rfl, rfl⟩
    | frameRead =>
        obtain ⟨h2, _, _, hfn, _, _⟩ := loopIter_frameRead env s _ rfl hc
        exact ⟨h2, hfn⟩
  · intro env mf hbr
    have := runIters_complete env mf initState rfl hbr
    simpa [runLoop, initState] using this
  · have hst := runIters_stream
      ⟨w, ht, ⟨N * frameSize w ht, fun _ => false⟩, iOk, eOk⟩ hw hht
      (fun _ => rfl) max_frames N initState rfl (by simp [initState])
    obtain ⟨ha, _, _⟩ := hst
    simpa [runLoop, initState] using ha

/-- Witness for c4_frame_failures_never_terminate: a 3-frame 4×2 stream
with a 5-iteration budget. -/
theorem c4_frame_failures_never_terminate_witness :
    (runLoop ⟨4, 2, ⟨3 * frameSize 4 2, fun _ => false⟩, fun _ => true,
        fun _ => true⟩ 5).attempted = min 5 3 :=
  (c4_frame_failures_never_terminate 4 2 3 5 (fun _ => true) (fun _ => true)
      (by decide) (by decide)).2.2

/-- On an error-free stream holding exactly `K` whole frames, each of
the first `K` sequential reads succeeds and leaves the stream position
at a whole-frame boundary. -/
lemma readSeq_success (w ht K : Nat) :
    ∀ k, k < K →
      readSeq ⟨K * frameSize w ht, fun _ => false⟩ w ht k
        = { ret := 0,
            h := { pos := (k + 1) * frameSize w ht, calls := 3 * (k + 1),
                   eofFlag := false, errFlag := false },
            wY := w * ht, wU := (w * ht) / 4, wV := (w * ht) / 4 } := by
  intro k
  induction k with
  | zero =>
      intro hk
      have hle : 1 ≤ K := hk
      have hs := readFrameCore_success ⟨K * frameSize w ht, fun _ => false⟩
        ⟨0, 0, false, false⟩ w ht (fun _ => rfl)
        (by
          simp
          calc frameSize w ht = 1 * frameSize w ht := (one_mul _).symm
            _ ≤ K * frameSize w ht := Nat.mul_le_mul_right _ hle)
      rw [readSeq, hs]
      simp
  | succ k ih =>
      intro hk
      have hk' : k < K := Nat.lt_of_succ_lt hk
      have h2 : k + 2 ≤ K := hk
      have hs := readFrameCore_success ⟨K * frameSize w ht, fun _ => false⟩
        ⟨(k + 1) * frameSize w ht, 3 * (k + 1), false, false⟩ w ht
        (fun _ => rfl)
        (by
          simp
          calc (k + 1) * frameSize w ht + frameSize w ht
              = (k + 2) * frameSize w ht := by ring
            _ ≤ K * frameSize w ht := Nat.mul_le_mul_right _ h2)
      rw [readSeq, ih hk', hs]
      simp [ReadOut.mk.injEq, Handle.mk.injEq]
      constructor <;> ring

/-- Claim C5: on an error-free stream of exactly `K` whole frames
(geometry positive), the first `K` `read_yuv420p_frame` calls succeed
and the `(K+1)`-th is classified `EndOfStream`; an `EndOfStream`
classification breaks the loop without touching any counter; and with a
limit of 5 iterations the run ends with `attempted = min 5 K` (so 3
for a 3-frame stream). -/
theorem c5_exact_frames_then_end_of_stream (w ht K : Nat)
    (hw : 0 < w) (hht : 0 < ht) :
    (∀ k, k < K →
       (readSeq ⟨K * frameSize w ht, fun _ => false⟩ w ht k).ret = 0) ∧
    classifyRead (readSeq ⟨K * frameSize w ht, fun _ => false⟩ w ht K).ret
        (readSeq ⟨K * frameSize w ht, fun _ => false⟩ w ht K).h
      = ReadClass.endOfStream ∧
    (∀ env s,
       classifyRead (iterRead env s).ret ((iterRead env s).fp.getD s.h)
           = ReadClass.endOfStream →
       (loopIter env s).2 = false ∧
       (loopIter env s).1.attempted = s.attempted ∧
       (loopIter env s).1.encoded_frames = s.encoded_frames ∧
       (loopIter env s).1.failed_frames = s.failed_frames ∧
       (loopIter env s).1.keyframes = s.keyframes) ∧
    (∀ iOk eOk : Nat → Bool,
       (runLoop ⟨w, ht, ⟨K * frameSize w ht, fun _ => false⟩, iOk, eOk⟩
           5).attempted
         = min 5 K) := by
  have hy : 0 < w * ht := Nat.mul_pos hw hht
  refine ⟨?_, ?_, ?_, ?_⟩
  · intro k hk
    rw [readSeq_success w ht K k hk]
  · cases K with
    | zero =>
        have hempty := readFrameCore_eos ⟨0 * frameSize w ht, fun _ => false⟩
          ⟨0, 0, false, false⟩ w ht (fun _ => rfl) hy (by simp)
        rw [readSeq, hempty]
        simp [classifyRead]
    | succ K' =>
        have hprev := readSeq_success w ht (K' + 1) K' (Nat.lt_succ_self _)
        have hempty := readFrameCore_eos
          ⟨(K' + 1) * frameSize w ht, fun _ => false⟩
          ⟨(K' + 1) * frameSize w ht, 3 * (K' + 1), false, false⟩ w ht
          (fun _ => rfl) hy (by simp)
        rw [readSeq, hprev, hempty]
        simp [classifyRead]
  · intro env s hcl
    have hcl' : classifyRead
        (readFrameCore env.file s.h env.width env.height).ret
        (readFrameCore env.file s.h env.width env.height).h
          = ReadClass.endOfStream := by
      simpa [iterRead, read_yuv420p_frame] using hcl
    have heq := loopIter_eos env s _ rfl hcl'
    rw [heq]
    simp
  · intro iOk eOk
    have hst := runIters_stream
      ⟨w, ht, ⟨K * frameSize w ht, fun _ => false⟩, iOk, eOk⟩ hw hht
      (fun _ => rfl) 5 K initState rfl (by simp [initState])
    obtain ⟨ha, _, _⟩ := hst
    simpa [runLoop, initState] using ha

/-- Witness for c5_exact_frames_then_end_of_stream: 3 frames at 4×2,
limit 5. -/
theorem c5_exact_frames_then_end_of_stream_witness :
    classifyRead (readSeq ⟨3 * frameSize 4 2, fun _ => false⟩ 4 2 3).ret
        (readSeq ⟨3 * frameSize 4 2, fun _ => false⟩ 4 2 3).h
      = ReadClass.endOfStream ∧
    (runLoop ⟨4, 2, ⟨3 * frameSize 4 2, fun _ => false⟩, fun _ => false,
        fun _ => true⟩ 5).attempted = min 5 3 :=
  ⟨(c5_exact_frames_then_end_of_stream 4 2 3 (by decide) (by decide)).2.1,
   (c5_exact_frames_then_end_of_stream 4 2 3 (by decide) (by decide)).2.2.2
     (fun _ => false) (fun _ => true)⟩

/-- Claim C7: the exit status of `main` is 0 iff setup succeeded and at
least one frame was encoded; any fatal setup failure yields -1 with no
loop run; and a completed run exits 0 on at least one success and 1 on
zero successes. -/
theorem c7_exit_status_policy (se : SetupEnv) (env : LoopEnv)
    (max_frames : Nat) :
    ((mainModel se env max_frames).1 = 0 ↔
       setupOk se = true ∧ 0 < (runLoop env max_frames).encoded_frames) ∧
    (setupOk se = false → mainModel se env max_frames = (-1, none)) ∧
    (setupOk se = true →
       mainModel se env max_frames
         = (if 0 < (runLoop env max_frames).encoded_frames then (0 : Int)
            else 1,
            some (runLoop env max_frames))) := by
  refine ⟨?_, mainModel_setup_fail se env max_frames,
          mainModel_setup_pass se env max_frames⟩
  by_cases hse : setupOk se = true
  · rw [mainModel_setup_pass se env max_frames hse]
    by_cases henc : 0 < (runLoop env max_frames).encoded_frames <;>
      simp [henc, hse]
  · have hse' : setupOk se = false := by
      simpa using hse
    rw [mainModel_setup_fail se env max_frames hse']
    simp [hse']

/-- Witness for c7_exit_status_policy: a failed GPU-context creation
aborts with -1 and no loop state. -/
theorem c7_exit_status_policy_witness :
    mainModel ⟨true, true, true, true, false, true, true, true⟩
        ⟨4, 2, ⟨36, fun _ => false⟩, fun _ => true, fun _ => true⟩ 5
      = (-1, none) :=
  (c7_exit_status_policy ⟨true, true, true, true, false, true, true, true⟩
      ⟨4, 2, ⟨36, fun _ => false⟩, fun _ => true, fun _ => true⟩ 5).2.1
    (by decide)
